import Mathlib

/-
Verification of the authentication / token-lifecycle core of the
python-pytrakt client library (src/trakt/api.py and src/trakt/auth/device.py)
against its natural-language specification.

Modelling conventions for the shallow embedding:
* JSON values are modelled by the inductive `Json` below.  A Python `None`
  is modelled by `Option.none` wherever a variable may hold it, and by
  `Json.null` when it is serialized into a JSON document (Python's json
  module maps the two to each other).  JSON arrays do not occur in any of
  the modelled data flows (token responses and the config file are objects),
  so they are omitted from the type.
* The HTTP wire is external: each transport operation takes the `Response`
  that the underlying `requests` session would return, and computes what the
  source code does with it.  UTF-8 body decoding and JSON parsing of the
  body are likewise external: `Response.content` is the parsed body.
* Python exceptions are modelled by `Except`: a raised exception is an
  `Except.error` value propagating outward.  Code that mutates `self` and
  then raises is modelled as returning only the error (no claim below
  depends on state observed after an escaped exception).
* Machine integers: epoch timestamps and intervals are `Int` seconds.
-/

namespace Trakt

/-- JSON values (arrays omitted: they occur in none of the modelled flows). -/
inductive Json where
  | null : Json
  | bool : Bool → Json
  | num : Int → Json
  | str : String → Json
  | obj : List (String × Json) → Json

/-- Python `dict.get(key)` on a decoded JSON object: `None` when the key is
missing, and also `None` when the stored JSON value is `null` (json.load maps
JSON `null` to Python `None`). -/
def jsonLookup : List (String × Json) → String → Option Json
  | [], _ => none
  | (k, v) :: rest, key =>
    if k = key then
      match v with
      | Json.null => none
      | _ => some v
    else jsonLookup rest key

/-- Serialization of a possibly-`None` Python value into a JSON document:
`None` becomes JSON `null` (json.dump). -/
def optToJson (o : Option Json) : Json :=
  o.getD Json.null

/-- Python `+` on two possibly-`None` JSON scalars, as used in
`response.get("created_at") + response.get("expires_in")`: defined on two
numbers (addition) and two strings (concatenation); anything else raises
`TypeError`, modelled by `none`. -/
def pyAdd : Option Json → Option Json → Option Json
  | some (Json.num a), some (Json.num b) => some (Json.num (a + b))
  | some (Json.str a), some (Json.str b) => some (Json.str (a ++ b))
  | _, _ => none

/-- Python f-string interpolation of a possibly-`None` value, as in
`f'Bearer \x7bclient_token\x7d'`.  The values interpolated in the modelled
code paths are strings, numbers, booleans or `None`; an interpolated
compound value cannot arise there, so its rendering is abbreviated. -/
def pyStr : Option Json → String
  | none => "None"
  | some Json.null => "None"
  | some (Json.bool true) => "True"
  | some (Json.bool false) => "False"
  | some (Json.num n) => toString n
  | some (Json.str s) => s
  | some (Json.obj _) => "<dict>"

/-- An HTTP response as seen by the client: status code, parsed JSON body
(`content` after the lenient UTF-8 decode and `json.loads`), and the
human-readable reason phrase. -/
structure Response where
  status_code : Nat
  content : Json
  reason : String

/-- The distinct error kinds of the library's exception taxonomy.
`oauth` is the kind raised for a rejected OAuth request (the kind that
`TokenAuth.refresh_token` catches). -/
inductive ErrKind where
  | badRequest | oauth | forbidden | notFound | conflict | process
  | rateLimit | internal | unavailable
deriving DecidableEq

/-- A raised library error: its kind together with the raw response it
carries (`TraktException` subclasses store the response object). -/
structure TraktError where
  kind : ErrKind
  response : Response

/-- Modelled from the spec: `trakt/errors.py` is not among the source files
(only `api.py` builds `error_map` from it, api.py lines 81-91).  Per the
spec's error taxonomy (authentication/authorization failures, not-found,
conflict, rate-limited, validation/input-rejected, server-side failure),
each recognized failure status maps to a distinct error kind; 2xx success
statuses are not in the table. -/
def error_map : List (Nat × ErrKind) :=
  [(400, ErrKind.badRequest), (401, ErrKind.oauth), (403, ErrKind.forbidden),
   (404, ErrKind.notFound), (409, ErrKind.conflict), (422, ErrKind.process),
   (429, ErrKind.rateLimit), (500, ErrKind.internal), (503, ErrKind.unavailable)]

/-- Lookup of a status code in the failure-status table. -/
def lookupErr : List (Nat × ErrKind) → Nat → Option ErrKind
  | [], _ => none
  | (c, k) :: rest, s => if c = s then some k else lookupErr rest s

/-- `HttpClient.raise_if_needed` (api.py lines 77-79): raise the error kind
mapped to the response's status code, when the status is in the table. -/
def HttpClient.raise_if_needed (resp : Response) : Except TraktError Unit :=
  match lookupErr error_map resp.status_code with
  | some k => Except.error ⟨k, resp⟩
  | none => Except.ok ()

/-- `HttpClient.request` (api.py lines 50-75): a 204 returns Python `None`
before any error mapping; otherwise a mapped failure status raises, and any
other status returns the decoded JSON body. -/
def HttpClient.request (resp : Response) : Except TraktError Json :=
  if resp.status_code = 204 then Except.ok Json.null
  else
    match HttpClient.raise_if_needed resp with
    | Except.error e => Except.error e
    | Except.ok _ => Except.ok resp.content

/-- `HttpClient.get` (api.py lines 32-33): returns the value of `request`.
The URL routing and wire transmission are external; `resp` is the response
the session returns for this request. -/
def HttpClient.get (_url : String) (resp : Response) : Except TraktError Json :=
  HttpClient.request resp

/-- `HttpClient.post` (api.py lines 38-39): returns the value of `request`. -/
def HttpClient.post (_url : String) (_data : Json) (resp : Response) :
    Except TraktError Json :=
  HttpClient.request resp

/-- `HttpClient.put` (api.py lines 41-42): returns the value of `request`. -/
def HttpClient.put (_url : String) (_data : Json) (resp : Response) :
    Except TraktError Json :=
  HttpClient.request resp

/-- `HttpClient.delete` (api.py lines 35-36): evaluates `request` for its
effect (exceptions propagate) but has no `return` statement, so the caller
always receives Python `None` on success. -/
def HttpClient.delete (_url : String) (resp : Response) : Except TraktError Json :=
  match HttpClient.request resp with
  | Except.error e => Except.error e
  | Except.ok _ => Except.ok Json.null

/-- A Python exception escaping the authentication code: either a library
error (a `TraktException` subclass) or a builtin `TypeError` /
`AttributeError`. -/
inductive PyError where
  | trakt : TraktError → PyError
  | typeError : PyError
  | attributeError : String → PyError

/-- The credential fields held by `TokenAuth` (a dict initialised from
`AuthConfig._asdict()`, api.py lines 97-101).  `none` models a field holding
Python `None`.  `OAUTH_TOKEN_VALID` is only ever tested for truthiness and
set to `True`, so it is modelled as a `Bool` (`false` covers both the
initial `None` and `False`). -/
structure AuthState where
  APPLICATION_ID : Option Json
  CLIENT_ID : Option Json
  CLIENT_SECRET : Option Json
  OAUTH_TOKEN : Option Json
  OAUTH_REFRESH : Option Json
  OAUTH_EXPIRES_AT : Option Json
  OAUTH_TOKEN_VALID : Bool
  REDIRECT_URI : Option Json

/-- The config file at `config_path`: `none` when no file exists at the
path (`os.path.exists` fails), otherwise the JSON object it contains. -/
abbrev FileSys : Type := Option (List (String × Json))

/-- The state with every credential field unset. -/
def emptyState : AuthState :=
  ⟨none, none, none, none, none, none, false, none⟩

/-- One step of the key-filling loop in `load_config` (api.py lines 202-206):
a field that is not `None` is kept, an unset one is filled with
`config_data.get(key, None)`. -/
def fill (old : Option Json) (cfg : List (String × Json)) (key : String) :
    Option Json :=
  match old with
  | some v => some v
  | none => jsonLookup cfg key

/-- `TokenAuth.load_config` (api.py lines 183-206): a no-op when both
CLIENT_ID and CLIENT_SECRET are set (Python precedence: `A and B or C`
parses as `(A and B) or C`) or when no config file exists; otherwise each
key of the fixed key list that is currently `None` is filled from the file. -/
def TokenAuth.load_config (s : AuthState) (fs : FileSys) : AuthState :=
  if (s.CLIENT_ID.isSome && s.CLIENT_SECRET.isSome) || fs.isNone then s
  else
    match fs with
    | none => s
    | some cfg =>
      { s with
        APPLICATION_ID := fill s.APPLICATION_ID cfg "APPLICATION_ID"
        CLIENT_ID := fill s.CLIENT_ID cfg "CLIENT_ID"
        CLIENT_SECRET := fill s.CLIENT_SECRET cfg "CLIENT_SECRET"
        OAUTH_EXPIRES_AT := fill s.OAUTH_EXPIRES_AT cfg "OAUTH_EXPIRES_AT"
        OAUTH_REFRESH := fill s.OAUTH_REFRESH cfg "OAUTH_REFRESH"
        OAUTH_TOKEN := fill s.OAUTH_TOKEN cfg "OAUTH_TOKEN" }

/-- `TokenAuth.store_token` (api.py lines 175-181): `json.dump` of exactly
the given keyword arguments into the file opened with mode `w` — a full
overwrite of whatever was at the path before. -/
def TokenAuth.store_token (kwargs : List (String × Json)) (_fs : FileSys) :
    FileSys :=
  some kwargs

/-- The keyword arguments `refresh_token` passes to `store_token`
(api.py lines 169-173), read from the state after the update. -/
def refreshStoredFields (s : AuthState) : List (String × Json) :=
  [("CLIENT_ID", optToJson s.CLIENT_ID),
   ("CLIENT_SECRET", optToJson s.CLIENT_SECRET),
   ("OAUTH_TOKEN", optToJson s.OAUTH_TOKEN),
   ("OAUTH_REFRESH", optToJson s.OAUTH_REFRESH),
   ("OAUTH_EXPIRES_AT", optToJson s.OAUTH_EXPIRES_AT)]

/-- `TokenAuth.refresh_token` (api.py lines 138-173).  `postResult` is what
`self.client.post('/oauth/token', data)` produces: the decoded JSON body,
or a raised library error.  An `OAuthException` (kind `oauth`) is caught and
the method returns with nothing changed; every other error propagates.  On
success, OAUTH_TOKEN and OAUTH_REFRESH are set from the response, then
OAUTH_EXPIRES_AT is computed as `created_at + expires_in` (a `TypeError`
escapes if those are not both numbers), OAUTH_TOKEN_VALID is set, and the
full credential set is persisted via `store_token`. -/
def TokenAuth.refresh_token (s : AuthState) (fs : FileSys)
    (postResult : Except TraktError Json) :
    Except PyError (AuthState × FileSys) :=
  match postResult with
  | Except.error e =>
    if e.kind = ErrKind.oauth then Except.ok (s, fs)
    else Except.error (PyError.trakt e)
  | Except.ok response =>
    match response with
    | Json.obj flds =>
      let s1 := { s with
        OAUTH_TOKEN := jsonLookup flds "access_token"
        OAUTH_REFRESH := jsonLookup flds "refresh_token" }
      match pyAdd (jsonLookup flds "created_at") (jsonLookup flds "expires_in") with
      | none => Except.error PyError.typeError
      | some t =>
        let s2 := { s1 with
          OAUTH_EXPIRES_AT := some t
          OAUTH_TOKEN_VALID := true }
        Except.ok (s2, TokenAuth.store_token (refreshStoredFields s2) fs)
    | _ => Except.error (PyError.attributeError "get")

/-- `timedelta(days=2)` in seconds (api.py line 133). -/
def twoDaysSecs : Int := 2 * 86400

/-- `TokenAuth.validate_token` (api.py lines 128-136): compares
`expires_at - now` against two days; above the margin it only marks the
token valid, otherwise it calls `refresh_token`.  The `Nat` in the result
counts how many refresh calls the step performed (0 or 1).  A non-numeric
OAUTH_EXPIRES_AT makes `datetime.fromtimestamp` raise `TypeError`. -/
def TokenAuth.validate_token (now : Int) (s : AuthState) (fs : FileSys)
    (postResult : Except TraktError Json) :
    Except PyError (AuthState × FileSys × Nat) :=
  match s.OAUTH_EXPIRES_AT with
  | some (Json.num expiresAt) =>
    if expiresAt - now > twoDaysSecs then
      Except.ok ({ s with OAUTH_TOKEN_VALID := true }, fs, 0)
    else
      (TokenAuth.refresh_token s fs postResult).map (fun p => (p.1, p.2, 1))
  | _ => Except.error PyError.typeError

/-- The data returned by `get_token` together with the state it leaves
behind and the number of refresh calls it performed. -/
structure GetTok where
  state : AuthState
  fsys : FileSys
  refreshCalls : Nat
  client_id : Option Json
  oauth_token : Option Json

/-- `TokenAuth.get_token` (api.py lines 113-126): load the config, then run
the validity check only when the token is not marked valid AND both
OAUTH_EXPIRES_AT and OAUTH_REFRESH are known; finally return the
`[CLIENT_ID, OAUTH_TOKEN]` pair from the (possibly refreshed) state. -/
def TokenAuth.get_token (now : Int) (s : AuthState) (fs : FileSys)
    (postResult : Except TraktError Json) : Except PyError GetTok :=
  let s1 := TokenAuth.load_config s fs
  if !s1.OAUTH_TOKEN_VALID && s1.OAUTH_EXPIRES_AT.isSome
      && s1.OAUTH_REFRESH.isSome then
    match TokenAuth.validate_token now s1 fs postResult with
    | Except.error e => Except.error e
    | Except.ok (s2, fs2, n) => Except.ok ⟨s2, fs2, n, s2.CLIENT_ID, s2.OAUTH_TOKEN⟩
  else
    Except.ok ⟨s1, fs, 0, s1.CLIENT_ID, s1.OAUTH_TOKEN⟩

/-- An outgoing HTTP request: its header dict. -/
structure Request where
  headers : List (String × String)

/-- `dict.update` for a single header key: replace the value at an existing
key, or append the key at the end. -/
def setHeader : List (String × String) → String → String → List (String × String)
  | [], k, v => [(k, v)]
  | (k0, v0) :: rest, k, v =>
    if k0 = k then (k, v) :: rest else (k0, v0) :: setHeader rest k v

/-- Header lookup (first occurrence of the key). -/
def lookupHeader : List (String × String) → String → Option String
  | [], _ => none
  | (k, v) :: rest, key => if k = key then some v else lookupHeader rest key

/-- `TokenAuth.__call__` (api.py lines 104-111): obtain the
`[client_id, client_token]` pair via `get_token`, then update the request's
headers with `trakt-api-key` and `Authorization: Bearer <token>` (f-string
interpolation of the token value) and return the request. -/
def TokenAuth.call (now : Int) (s : AuthState) (fs : FileSys)
    (postResult : Except TraktError Json) (r : Request) :
    Except PyError (Request × AuthState × FileSys) :=
  match TokenAuth.get_token now s fs postResult with
  | Except.error e => Except.error e
  | Except.ok res =>
    Except.ok
      (⟨setHeader (setHeader r.headers "trakt-api-key" (pyStr res.client_id))
          "Authorization" ("Bearer " ++ pyStr res.oauth_token)⟩,
       res.state, res.fsys)

/-- Modelled from the spec: the underlying `requests` session (not a source
file of this repository) invokes the installed auth hook exactly once per
outgoing request, synchronously, before the request goes on the wire; the
request actually sent is the single hook application's result. -/
def Session.send (now : Int) (s : AuthState) (fs : FileSys)
    (postResult : Except TraktError Json) (r : Request) :
    Except PyError (Request × AuthState × FileSys) :=
  TokenAuth.call now s fs postResult r

/-- `DeviceAuth.get_device_token` (device.py lines 96-132) composed with the
`HttpClient` it is given (device.py line 3 imports it; api.py defines it):
`self.client.post('/oauth/device/token', data=data)` is `HttpClient.post`,
which raises the mapped library error for a failure status and otherwise
returns the decoded JSON body (a dict, or `None` for a 204).  The very next
statement, `response.status_code` (device.py line 121), is an attribute
access that no dict or `None` value supports, so it raises
`AttributeError`; the 200 branch that would update the Credential Store,
the `store` flag handling, and the 400/429/other branches of the polling
loop in `authenticate` (device.py lines 58-74, which has no exception
handler) are unreachable through this client. -/
def DeviceAuth.get_device_token (device_code : Json) (cfg : AuthState)
    (wire : Response) : Except PyError Json :=
  match HttpClient.post "/oauth/device/token"
      (Json.obj [("code", device_code),
                 ("client_id", optToJson cfg.CLIENT_ID),
                 ("client_secret", optToJson cfg.CLIENT_SECRET)]) wire with
  | Except.error e => Except.error (PyError.trakt e)
  | Except.ok _ => Except.error (PyError.attributeError "status_code")

/-! Concrete inputs used to evaluate the development on closed instances. -/

/-- A device-token poll answered with HTTP 400 (authorization pending). -/
def wire400 : Response :=
  ⟨400, Json.obj [("error", Json.str "authorization_pending")], "Bad Request"⟩

/-- A device-token poll answered with HTTP 200 and a token payload
(the example payload of device.py lines 100-108). -/
def wire200 : Response :=
  ⟨200, Json.obj [("access_token", Json.str "tok"),
                  ("token_type", Json.str "bearer"),
                  ("expires_in", Json.num 7776000),
                  ("refresh_token", Json.str "ref"),
                  ("scope", Json.str "public"),
                  ("created_at", Json.num 1519329051)], "OK"⟩

/-- A response answered with HTTP 429. -/
def resp429 : Response := ⟨429, Json.obj [], "Too Many Requests"⟩

/-- A 204 No Content response (its body is never decoded). -/
def resp204 : Response := ⟨204, Json.str "ignored", "No Content"⟩

/-- A 200 response whose body is the JSON literal `null`. -/
def respNullBody : Response := ⟨200, Json.null, "OK"⟩

/-- A 200 response whose body is the empty JSON object. -/
def respEmptyObj : Response := ⟨200, Json.obj [], "OK"⟩

/-- A state with CLIENT_ID and OAUTH_TOKEN set and CLIENT_SECRET unset. -/
def sW6 : AuthState :=
  ⟨none, some (Json.str "id"), none, some (Json.str "tok"), none, none,
   false, none⟩

/-- A config file that offers values for keys `sW6` already holds. -/
def fsW6 : FileSys :=
  some [("CLIENT_ID", Json.str "other-id"),
        ("CLIENT_SECRET", Json.str "sec"),
        ("OAUTH_TOKEN", Json.str "other-tok")]

/-- A state whose token expires three days from epoch 0. -/
def s3d : AuthState :=
  ⟨none, some (Json.str "cid"), some (Json.str "sec"), some (Json.str "old"),
   some (Json.str "ref"), some (Json.num 259200), false, none⟩

/-- A state whose token expires one hour from epoch 0. -/
def s1h : AuthState :=
  ⟨none, some (Json.str "cid"), some (Json.str "sec"), some (Json.str "old"),
   some (Json.str "ref"), some (Json.num 3600), false, none⟩

/-- A successful refresh-grant response body. -/
def fldsR : List (String × Json) :=
  [("access_token", Json.str "newtok"), ("token_type", Json.str "bearer"),
   ("expires_in", Json.num 7776000), ("refresh_token", Json.str "newref"),
   ("scope", Json.str "public"), ("created_at", Json.num 1519329051)]

/-- A state holding a full credential set before a refresh. -/
def sR : AuthState :=
  ⟨none, some (Json.str "cid"), some (Json.str "sec"), some (Json.str "oldtok"),
   some (Json.str "oldref"), some (Json.num 5), false,
   some (Json.str "urn:ietf:wg:oauth:2.0:oob")⟩

/-- A state already holding a valid client id and token. -/
def s8 : AuthState :=
  ⟨none, some (Json.str "cid"), some (Json.str "sec"), some (Json.str "tok"),
   none, none, true, none⟩

/-- A request carrying one caller-set header. -/
def r8 : Request := ⟨[("Content-Type", "application/json")]⟩

/-- The `get_token` outcome for `s8` with no config file: nothing to load,
token already marked valid, so no refresh call and the held pair returned. -/
def res8W : GetTok :=
  ⟨s8, none, 0, some (Json.str "cid"), some (Json.str "tok")⟩

/-- A header of the request a `Session.send` outcome put on the wire
(`none` when the send raised instead). -/
def sentHeaders (x : Except PyError (Request × AuthState × FileSys))
    (key : String) : Option String :=
  match x with
  | Except.ok (r, _, _) => lookupHeader r.headers key
  | Except.error _ => none

/-! Helper lemmas. -/

/-- A field that is already set is left alone by the filling step. -/
theorem fill_isSome (old : Option Json) (cfg : List (String × Json))
    (key : String) (h : old.isSome = true) : fill old cfg key = old := by
  cases old with
  | none => simp at h
  | some v => rfl

/-- Looking up the key just set yields the value just written. -/
theorem lookupHeader_setHeader_same (hs : List (String × String)) (k v : String) :
    lookupHeader (setHeader hs k v) k = some v := by
  induction hs with
  | nil => simp [setHeader, lookupHeader]
  | cons p rest ih =>
    obtain ⟨k0, v0⟩ := p
    by_cases h : k0 = k
    · subst h
      simp [setHeader, lookupHeader]
    · simp [setHeader, lookupHeader, h, ih]

/-- Setting one header key leaves every other key's value unchanged. -/
theorem lookupHeader_setHeader_other (hs : List (String × String))
    (k v key : String) (h : k ≠ key) :
    lookupHeader (setHeader hs k v) key = lookupHeader hs key := by
  induction hs with
  | nil => simp [setHeader, lookupHeader, h]
  | cons p rest ih =>
    obtain ⟨k0, v0⟩ := p
    by_cases h0 : k0 = k
    · subst h0
      simp [setHeader, lookupHeader, h]
    · simp [setHeader, lookupHeader, h0, ih]

/-! Claim theorems. -/

/-- Claim C4: for every response whose status code is in the configured
failure-status table, the Transport request call fails with the error kind
mapped to that status code, and the raised error object carries the original
raw response. -/
theorem request_fails_on_mapped_status (resp : Response) (k : ErrKind)
    (h : lookupErr error_map resp.status_code = some k) :
    HttpClient.request resp = Except.error ⟨k, resp⟩
    ∧ (TraktError.mk k resp).response = resp := by
  have h204 : ¬ resp.status_code = 204 := by
    intro e
    rw [e] at h
    simp [error_map, lookupErr] at h
  refine ⟨?_, rfl⟩
  unfold HttpClient.request HttpClient.raise_if_needed
  rw [if_neg h204, h]

/-- Witness for C4: a 429 response is in the table and the call fails with
the rate-limited kind carrying that very response. -/
theorem request_fails_on_mapped_status_witness :
    lookupErr error_map resp429.status_code = some ErrKind.rateLimit
    ∧ HttpClient.request resp429 = Except.error ⟨ErrKind.rateLimit, resp429⟩ :=
  ⟨rfl, (request_fails_on_mapped_status resp429 ErrKind.rateLimit rfl).1⟩

/-- Claim C5, counterexample: the claim says the 204 result is distinct from
the `null` payloads that successful non-204 responses can decode to, but a
204 returns Python `None` (api.py line 72), exactly the value `json.loads`
produces for a 200 response whose body is the JSON literal `null`. -/
theorem noContent_equals_null_decode :
    HttpClient.request resp204 = HttpClient.request respNullBody := rfl

/-- Claim C5, amended: every 204 response makes the Transport call return
Python `None` without decoding the body, and that result is distinct from
the empty-object payload a successful non-204 response decodes to (but not
from a decoded `null` payload). -/
theorem noContent_is_none_distinct_from_empty_obj (resp : Response)
    (h : resp.status_code = 204) :
    HttpClient.request resp = Except.ok Json.null
    ∧ ∀ resp2 : Response, resp2.status_code = 200 → resp2.content = Json.obj [] →
        HttpClient.request resp2 ≠ HttpClient.request resp := by
  have h1 : HttpClient.request resp = Except.ok Json.null := by
    unfold HttpClient.request
    rw [if_pos h]
  refine ⟨h1, ?_⟩
  rintro ⟨sc, ct, rs⟩ h2 hc heq
  dsimp only at h2 hc
  subst h2
  subst hc
  have h2' : HttpClient.request ⟨200, Json.obj [], rs⟩ = Except.ok (Json.obj []) := rfl
  rw [h2', h1] at heq
  injection heq with hj
  exact Json.noConfusion hj

/-- Witness for C5 (amended): evaluated at the concrete 204 and
empty-object responses. -/
theorem noContent_is_none_distinct_witness :
    HttpClient.request resp204 = Except.ok Json.null
    ∧ HttpClient.request respEmptyObj ≠ HttpClient.request resp204 :=
  ⟨(noContent_is_none_distinct_from_empty_obj resp204 rfl).1,
   (noContent_is_none_distinct_from_empty_obj resp204 rfl).2 respEmptyObj rfl rfl⟩

/-- Claim C9: for every path, `delete` returns no value: the decoded payload
of a successful response is discarded (the caller always receives `None`),
while mapped failure statuses still raise their typed errors — unlike `get`,
which returns the decoded payload of `request`. -/
theorem delete_discards_payload (url : String) (resp : Response) :
    HttpClient.delete url resp = (HttpClient.request resp).map (fun _ => Json.null)
    ∧ HttpClient.get url resp = HttpClient.request resp := by
  refine ⟨?_, rfl⟩
  cases h : HttpClient.request resp with
  | error e => simp [HttpClient.delete, h, Except.map]
  | ok v => simp [HttpClient.delete, h, Except.map]

/-- Claim C6: `load_config` is a no-op when both client credentials are set
or no config file exists, and otherwise it fills only currently-unset
fields: every field that is non-`None` before the call is unchanged after
it (the `OAUTH_TOKEN_VALID` and `REDIRECT_URI` fields are never touched at
all, being absent from the key list). -/
theorem load_config_preserves_set_fields (s : AuthState) (fs : FileSys) :
    (((s.CLIENT_ID.isSome && s.CLIENT_SECRET.isSome) || fs.isNone) = true →
      TokenAuth.load_config s fs = s)
    ∧ (s.APPLICATION_ID.isSome = true →
      (TokenAuth.load_config s fs).APPLICATION_ID = s.APPLICATION_ID)
    ∧ (s.CLIENT_ID.isSome = true →
      (TokenAuth.load_config s fs).CLIENT_ID = s.CLIENT_ID)
    ∧ (s.CLIENT_SECRET.isSome = true →
      (TokenAuth.load_config s fs).CLIENT_SECRET = s.CLIENT_SECRET)
    ∧ (s.OAUTH_EXPIRES_AT.isSome = true →
      (TokenAuth.load_config s fs).OAUTH_EXPIRES_AT = s.OAUTH_EXPIRES_AT)
    ∧ (s.OAUTH_REFRESH.isSome = true →
      (TokenAuth.load_config s fs).OAUTH_REFRESH = s.OAUTH_REFRESH)
    ∧ (s.OAUTH_TOKEN.isSome = true →
      (TokenAuth.load_config s fs).OAUTH_TOKEN = s.OAUTH_TOKEN)
    ∧ (TokenAuth.load_config s fs).OAUTH_TOKEN_VALID = s.OAUTH_TOKEN_VALID
    ∧ (TokenAuth.load_config s fs).REDIRECT_URI = s.REDIRECT_URI := by
  by_cases hc : ((s.CLIENT_ID.isSome && s.CLIENT_SECRET.isSome) || fs.isNone) = true
  · have he : TokenAuth.load_config s fs = s := by
      simp [TokenAuth.load_config, hc]
    exact ⟨fun _ => he, fun _ => by rw [he], fun _ => by rw [he],
           fun _ => by rw [he], fun _ => by rw [he], fun _ => by rw [he],
           fun _ => by rw [he], by rw [he], by rw [he]⟩
  · cases fs with
    | none => exact absurd (by simp) hc
    | some cfg =>
      have hA : (s.CLIENT_ID.isSome && s.CLIENT_SECRET.isSome) = false := by
        revert hc
        cases s.CLIENT_ID.isSome && s.CLIENT_SECRET.isSome <;> simp
      have he : TokenAuth.load_config s (some cfg) = { s with
          APPLICATION_ID := fill s.APPLICATION_ID cfg "APPLICATION_ID"
          CLIENT_ID := fill s.CLIENT_ID cfg "CLIENT_ID"
          CLIENT_SECRET := fill s.CLIENT_SECRET cfg "CLIENT_SECRET"
          OAUTH_EXPIRES_AT := fill s.OAUTH_EXPIRES_AT cfg "OAUTH_EXPIRES_AT"
          OAUTH_REFRESH := fill s.OAUTH_REFRESH cfg "OAUTH_REFRESH"
          OAUTH_TOKEN := fill s.OAUTH_TOKEN cfg "OAUTH_TOKEN" } := by
        simp [TokenAuth.load_config, hA]
      refine ⟨fun h => absurd h (by simp [hA]), ?_, ?_, ?_, ?_, ?_, ?_, ?_, ?_⟩
      all_goals first
        | (intro hf; rw [he]; exact fill_isSome _ _ _ hf)
        | rw [he]

/-- Witness for C6: on a state with CLIENT_ID and OAUTH_TOKEN set (and
CLIENT_SECRET unset, so the call proceeds to read the file), the file's
competing values do not overwrite the live ones. -/
theorem load_config_preserves_witness :
    (TokenAuth.load_config sW6 fsW6).CLIENT_ID = sW6.CLIENT_ID
    ∧ (TokenAuth.load_config sW6 fsW6).OAUTH_TOKEN = sW6.OAUTH_TOKEN :=
  ⟨(load_config_preserves_set_fields sW6 fsW6).2.2.1 rfl,
   (load_config_preserves_set_fields sW6 fsW6).2.2.2.2.2.2.1 rfl⟩

/-- Claim C7: `store_token` fully overwrites the config file with exactly
the given fields, and a fresh `load_config` on a store whose fields are all
unset reads back exactly the stored value of every credential field. -/
theorem store_then_load_roundtrip (fields : List (String × Json)) (fs0 : FileSys) :
    TokenAuth.store_token fields fs0 = some fields
    ∧ (TokenAuth.load_config emptyState (TokenAuth.store_token fields fs0)).APPLICATION_ID
        = jsonLookup fields "APPLICATION_ID"
    ∧ (TokenAuth.load_config emptyState (TokenAuth.store_token fields fs0)).CLIENT_ID
        = jsonLookup fields "CLIENT_ID"
    ∧ (TokenAuth.load_config emptyState (TokenAuth.store_token fields fs0)).CLIENT_SECRET
        = jsonLookup fields "CLIENT_SECRET"
    ∧ (TokenAuth.load_config emptyState (TokenAuth.store_token fields fs0)).OAUTH_EXPIRES_AT
        = jsonLookup fields "OAUTH_EXPIRES_AT"
    ∧ (TokenAuth.load_config emptyState (TokenAuth.store_token fields fs0)).OAUTH_REFRESH
        = jsonLookup fields "OAUTH_REFRESH"
    ∧ (TokenAuth.load_config emptyState (TokenAuth.store_token fields fs0)).OAUTH_TOKEN
        = jsonLookup fields "OAUTH_TOKEN" := by
  refine ⟨rfl, ?_, ?_, ?_, ?_, ?_, ?_⟩ <;>
    simp [TokenAuth.store_token, TokenAuth.load_config, emptyState, fill]

/-- Claim C3: when the validity check routes to the refresh decision, a
remaining lifetime strictly above two days only marks the token valid (zero
refresh calls), and otherwise exactly one refresh call is performed (the
result is a single application of `refresh_token`, tagged with call
count 1). -/
theorem validate_token_refresh_decision (now expiresAt : Int) (s : AuthState)
    (fs : FileSys) (pr : Except TraktError Json)
    (hexp : s.OAUTH_EXPIRES_AT = some (Json.num expiresAt)) :
    (expiresAt - now > twoDaysSecs →
      TokenAuth.validate_token now s fs pr
        = Except.ok ({ s with OAUTH_TOKEN_VALID := true }, fs, 0))
    ∧ (expiresAt - now ≤ twoDaysSecs →
      TokenAuth.validate_token now s fs pr
        = (TokenAuth.refresh_token s fs pr).map (fun p => (p.1, p.2, 1))) := by
  constructor
  · intro h
    simp [TokenAuth.validate_token, hexp, h]
  · intro h
    simp [TokenAuth.validate_token, hexp, not_lt.mpr h]

/-- Witness for C3: with `now = 0`, an expiry three days out performs no
refresh call and only marks the token valid, while an expiry one hour out
performs exactly one refresh call. -/
theorem validate_token_refresh_decision_witness :
    TokenAuth.validate_token 0 s3d none (Except.ok (Json.obj fldsR))
      = Except.ok ({ s3d with OAUTH_TOKEN_VALID := true }, none, 0)
    ∧ TokenAuth.validate_token 0 s1h none (Except.ok (Json.obj fldsR))
      = (TokenAuth.refresh_token s1h none (Except.ok (Json.obj fldsR))).map
          (fun p => (p.1, p.2, 1)) :=
  ⟨(validate_token_refresh_decision 0 259200 s3d none
      (Except.ok (Json.obj fldsR)) rfl).1 (by decide),
   (validate_token_refresh_decision 0 3600 s1h none
      (Except.ok (Json.obj fldsR)) rfl).2 (by decide)⟩

/-- Claim C2: a successful refresh response updates token, refresh token and
recomputed expiry (`created_at + expires_in`) together, marks the token
valid, leaves the client credentials alone, and persists the full credential
set via `store_token`; a refresh rejected with the OAuth error kind leaves
state and file unchanged and raises nothing. -/
theorem refresh_token_updates_or_leaves_unchanged (s : AuthState) (fs : FileSys)
    (flds : List (String × Json)) (c ex : Int)
    (hc : jsonLookup flds "created_at" = some (Json.num c))
    (he : jsonLookup flds "expires_in" = some (Json.num ex)) :
    (∃ s2, TokenAuth.refresh_token s fs (Except.ok (Json.obj flds))
        = Except.ok (s2, some (refreshStoredFields s2))
      ∧ s2.OAUTH_TOKEN = jsonLookup flds "access_token"
      ∧ s2.OAUTH_REFRESH = jsonLookup flds "refresh_token"
      ∧ s2.OAUTH_EXPIRES_AT = some (Json.num (c + ex))
      ∧ s2.OAUTH_TOKEN_VALID = true
      ∧ s2.CLIENT_ID = s.CLIENT_ID
      ∧ s2.CLIENT_SECRET = s.CLIENT_SECRET)
    ∧ (∀ e : TraktError, e.kind = ErrKind.oauth →
        TokenAuth.refresh_token s fs (Except.error e) = Except.ok (s, fs)) := by
  constructor
  · refine ⟨{ s with
        OAUTH_TOKEN := jsonLookup flds "access_token"
        OAUTH_REFRESH := jsonLookup flds "refresh_token"
        OAUTH_EXPIRES_AT := some (Json.num (c + ex))
        OAUTH_TOKEN_VALID := true }, ?_, rfl, rfl, rfl, rfl, rfl, rfl⟩
    simp [TokenAuth.refresh_token, hc, he, pyAdd, TokenAuth.store_token]
  · intro e hke
    simp [TokenAuth.refresh_token, hke]

/-- Witness for C2: the refresh theorem evaluated on a concrete credential
set, a concrete successful response body, and a concrete OAuth rejection. -/
theorem refresh_token_updates_witness :
    TokenAuth.refresh_token sR none (Except.error ⟨ErrKind.oauth, resp429⟩)
      = Except.ok (sR, none)
    ∧ (TokenAuth.refresh_token sR none (Except.ok (Json.obj fldsR))).isOk = true := by
  have h := refresh_token_updates_or_leaves_unchanged sR none fldsR
    1519329051 7776000 rfl rfl
  refine ⟨h.2 ⟨ErrKind.oauth, resp429⟩ rfl, ?_⟩
  obtain ⟨s2, heq, -, -, -, -, -, -⟩ := h.1
  rw [heq]
  rfl

/-- Claim C8: for every outgoing request with the Token Authenticator
attached as its auth hook, the single synchronous hook application performed
before the send sets the trakt-api-key header to the client id and the
Authorization header to Bearer followed by the token, leaving every other
header as the caller set it. -/
theorem auth_hook_sets_headers_once (now : Int) (s : AuthState) (fs : FileSys)
    (pr : Except TraktError Json) (r : Request) (res : GetTok)
    (h : TokenAuth.get_token now s fs pr = Except.ok res) :
    ∃ r', Session.send now s fs pr r = Except.ok (r', res.state, res.fsys)
      ∧ lookupHeader r'.headers "trakt-api-key" = some (pyStr res.client_id)
      ∧ lookupHeader r'.headers "Authorization"
          = some ("Bearer " ++ pyStr res.oauth_token)
      ∧ ∀ k, k ≠ "trakt-api-key" → k ≠ "Authorization" →
          lookupHeader r'.headers k = lookupHeader r.headers k := by
  refine ⟨⟨setHeader (setHeader r.headers "trakt-api-key" (pyStr res.client_id))
      "Authorization" ("Bearer " ++ pyStr res.oauth_token)⟩, ?_, ?_, ?_, ?_⟩
  · simp [Session.send, TokenAuth.call, h]
  · rw [lookupHeader_setHeader_other _ _ _ _ (by decide)]
    exact lookupHeader_setHeader_same _ _ _
  · exact lookupHeader_setHeader_same _ _ _
  · intro k h1 h2
    rw [lookupHeader_setHeader_other _ _ _ _ (Ne.symm h2),
        lookupHeader_setHeader_other _ _ _ _ (Ne.symm h1)]

/-- Witness for C8: the request actually sent for the concrete state `s8`
carries the api key, the bearer token, and the untouched caller header. -/
theorem auth_hook_sets_headers_witness :
    sentHeaders (Session.send 0 s8 none (Except.ok (Json.obj fldsR)) r8)
      "trakt-api-key" = some "cid"
    ∧ sentHeaders (Session.send 0 s8 none (Except.ok (Json.obj fldsR)) r8)
      "Authorization" = some "Bearer tok"
    ∧ sentHeaders (Session.send 0 s8 none (Except.ok (Json.obj fldsR)) r8)
      "Content-Type" = some "application/json" := by
  obtain ⟨r', hsend, hkey, hauth, hother⟩ :=
    auth_hook_sets_headers_once 0 s8 none (Except.ok (Json.obj fldsR)) r8 res8W rfl
  refine ⟨?_, ?_, ?_⟩
  · simp only [hsend, sentHeaders]
    exact hkey
  · simp only [hsend, sentHeaders]
    exact hauth
  · simp only [hsend, sentHeaders]
    exact (hother "Content-Type" (by decide) (by decide)).trans rfl

/-- Claim C10: signing a request while OAUTH_TOKEN is `None` and no refresh
path is available neither raises nor omits the header: the hook completes
and attaches the literal Authorization value produced by interpolating
`None`, namely the string Bearer None. -/
theorem unset_token_signs_bearer_none (now : Int) (s : AuthState) (fs : FileSys)
    (pr : Except TraktError Json) (r : Request)
    (htok : (TokenAuth.load_config s fs).OAUTH_TOKEN = none)
    (href : (TokenAuth.load_config s fs).OAUTH_REFRESH = none
            ∨ (TokenAuth.load_config s fs).OAUTH_EXPIRES_AT = none) :
    TokenAuth.call now s fs pr r
      = Except.ok
          (⟨setHeader (setHeader r.headers "trakt-api-key"
              (pyStr (TokenAuth.load_config s fs).CLIENT_ID))
            "Authorization" "Bearer None"⟩,
           TokenAuth.load_config s fs, fs)
    ∧ lookupHeader (setHeader (setHeader r.headers "trakt-api-key"
          (pyStr (TokenAuth.load_config s fs).CLIENT_ID))
          "Authorization" "Bearer None") "Authorization" = some "Bearer None" := by
  have hguard : (!(TokenAuth.load_config s fs).OAUTH_TOKEN_VALID
      && (TokenAuth.load_config s fs).OAUTH_EXPIRES_AT.isSome
      && (TokenAuth.load_config s fs).OAUTH_REFRESH.isSome) = false := by
    rcases href with h | h <;> simp [h]
  have hget : TokenAuth.get_token now s fs pr
      = Except.ok ⟨TokenAuth.load_config s fs, fs, 0,
          (TokenAuth.load_config s fs).CLIENT_ID,
          (TokenAuth.load_config s fs).OAUTH_TOKEN⟩ := by
    simp [TokenAuth.get_token, hguard]
  constructor
  · simp [TokenAuth.call, hget, htok, pyStr]
  · exact lookupHeader_setHeader_same _ _ _

/-- Witness for C10: a wholly unset credential store with no config file
still signs the request, with Authorization literally Bearer None. -/
theorem unset_token_signs_bearer_none_witness :
    TokenAuth.call 0 emptyState none (Except.ok (Json.obj fldsR)) ⟨[]⟩
      = Except.ok (⟨[("trakt-api-key", "None"), ("Authorization", "Bearer None")]⟩,
          emptyState, none)
    ∧ lookupHeader [("trakt-api-key", "None"), ("Authorization", "Bearer None")]
        "Authorization" = some "Bearer None" := by
  have h := unset_token_signs_bearer_none 0 emptyState none
    (Except.ok (Json.obj fldsR)) ⟨[]⟩ rfl (Or.inl rfl)
  exact ⟨h.1, h.2⟩

/-- Claim C1 (code bug): the polling loop of `DeviceAuth.authenticate`
(device.py lines 58-74) is specified to continue on 400, double its
interval on 429, and update the Credential Store on 200 without ever
raising on those statuses; but the loop body's very first step already
raises through the `HttpClient` the class is constructed with: a 400 poll
makes `client.post` raise the mapped bad-request error before the loop's
status dispatch can see it, and a 200 poll returns a decoded dict on which
the `status_code` attribute access raises, so the token is never stored and
the loop never proceeds. `authenticate` installs no exception handler, so
both errors propagate to its caller. -/
theorem device_poll_raises_instead_of_looping :
    DeviceAuth.get_device_token (Json.str "abc") emptyState wire400
      = Except.error (PyError.trakt ⟨ErrKind.badRequest, wire400⟩)
    ∧ DeviceAuth.get_device_token (Json.str "abc") emptyState wire200
      = Except.error (PyError.attributeError "status_code") :=
  ⟨rfl, rfl⟩

end Trakt
